import Mathlib

/- Formal model of the job-match explanation service (src/app.py).
   The embedding covers: a JSON-like value type as produced by json.loads,
   Python-style string helpers (strip, split, containment, str()),
   the response normalizer normalize_analysis_response, the prompt built in
   analyze_job_match, and the /analyze_job_match request handler.
   External collaborators (the Flask server, the OpenAI client, json.loads)
   are modelled as oracle parameters; everything in src/app.py itself is
   translated directly. -/

/-- JSON-like values as decoded by json.loads: null, booleans, numbers
(modelled as integers; no property here depends on float formatting),
strings, arrays, and objects. Objects are insertion-ordered association
lists, like Python dicts. -/
inductive JValue : Type where
  | null : JValue
  | bool : Bool → JValue
  | num : Int → JValue
  | str : String → JValue
  | arr : List JValue → JValue
  | obj : List (String × JValue) → JValue

/-- A Python dict with string keys, as an insertion-ordered association list. -/
abbrev PyDict := List (String × JValue)

/-- The apostrophe character as a one-character string. -/
def apos : String := (Char.ofNat 39).toString

/-- Membership test for Python's whitespace set as used by str.strip()
(ASCII whitespace: space, tab, newline, carriage return, vertical tab,
form feed; the Unicode extras are irrelevant to this code). -/
def isPySpace (c : Char) : Bool :=
  c == ' ' || c == '\t' || c == '\n' || c == '\r' || c == '\x0b' || c == '\x0c'

/-- Strip leading and trailing Python whitespace from a character list. -/
def stripChars (l : List Char) : List Char :=
  ((l.dropWhile isPySpace).reverse.dropWhile isPySpace).reverse

/-- Python str.strip(): remove leading and trailing whitespace. -/
def pyStrip (s : String) : String := (stripChars s.toList).asString

/-- Python substring membership test for a single character: c in s. -/
def charIn (c : Char) (s : String) : Bool := s.toList.contains c

/-- Python s.split(sep) for a one-character separator: splits at every
occurrence of the separator, keeping empty pieces (so the result always has
one more element than the number of separators). -/
def splitChAux (c : Char) : List Char → List (List Char)
  | [] => [[]]
  | x :: xs =>
    let r := splitChAux c xs
    if x == c then [] :: r
    else
      match r with
      | [] => [[x]]
      | h :: t => (x :: h) :: t

/-- Python s.split(sep) on strings, for a one-character separator. -/
def pySplit (s : String) (c : Char) : List String :=
  (splitChAux c s.toList).map List.asString

/-- The list comprehension used by the normalizer on each delimiter branch:
[x.strip() for x in s.split(c) if x.strip()] — strip every piece and keep
only the pieces whose strip is non-empty. -/
def splitAndTrim (s : String) (c : Char) : List String :=
  ((pySplit s c).map pyStrip).filter (fun t => !t.isEmpty)

/-- Decimal digit as a character. -/
def digitChar (n : Nat) : Char := Char.ofNat (48 + n)

/-- Decimal digits of a natural number, most significant first. -/
def natDigits (n : Nat) : List Char :=
  if n < 10 then [digitChar n]
  else natDigits (n / 10) ++ [digitChar (n % 10)]
  decreasing_by exact Nat.div_lt_self (by omega) (by omega)

/-- Decimal representation of a natural number (Python str for Nat). -/
def natRepr (n : Nat) : String := (natDigits n).asString

/-- Python str() of an integer. -/
def intRepr (i : Int) : String :=
  if i < 0 then "-" ++ natRepr i.natAbs else natRepr i.natAbs

mutual
/-- Python repr() of a JSON-decoded value, as used by str() on containers.
String escaping inside repr is not modelled (no string in this development
needs escapes); a string is rendered between apostrophes as Python does. -/
def pyRepr : JValue → String
  | .null => "None"
  | .bool b => if b then "True" else "False"
  | .num n => intRepr n
  | .str s => apos ++ s ++ apos
  | .arr l => "[" ++ pyReprItems l ++ "]"
  | .obj l => "\x7b" ++ pyReprEntries l ++ "\x7d"

/-- Comma-separated repr of list items. -/
def pyReprItems : List JValue → String
  | [] => ""
  | [x] => pyRepr x
  | x :: xs => pyRepr x ++ ", " ++ pyReprItems xs

/-- Comma-separated repr of dict entries. -/
def pyReprEntries : List (String × JValue) → String
  | [] => ""
  | [(k, v)] => apos ++ k ++ apos ++ ": " ++ pyRepr v
  | (k, v) :: xs => apos ++ k ++ apos ++ ": " ++ pyRepr v ++ ", " ++ pyReprEntries xs
end

/-- Python str() of a JSON-decoded value: a string is itself, anything else
is its repr (matching str() on None, bools, ints, lists and dicts). -/
def pyStr : JValue → String
  | .str s => s
  | v => pyRepr v

/-- First-match lookup in an association list; on a genuine Python dict the
keys are unique, so this is exactly dict lookup / the in operator. -/
def lookupKey : PyDict → String → Option JValue
  | [], _ => none
  | (k, v) :: rest, key => if k = key then some v else lookupKey rest key

/-- Python dict.get(key, default). -/
def lookupKeyD (d : PyDict) (key : String) (dflt : JValue) : JValue :=
  (lookupKey d key).getD dflt

/-- The string branch of the normalizer's list-field coercion
(src/app.py lines 44-54): a blank string stays the default empty list;
otherwise split by the first matching delimiter in priority order newline,
semicolon, comma, stripping pieces and dropping blank ones; with no
delimiter present the whole (untrimmed) string becomes a singleton. -/
def splitByPriority (s : String) : List String :=
  if pyStrip s = "" then []
  else if charIn '\n' s then splitAndTrim s '\n'
  else if charIn ';' s then splitAndTrim s ';'
  else if charIn ',' s then splitAndTrim s ','
  else [s]

/-- Coercion applied by the normalizer to the match_explanation field
(src/app.py lines 31-36): absent defaults to the empty string, a string
passes through, anything else becomes str(value). -/
def meCoerce : Option JValue → JValue
  | none => .str ""
  | some (.str s) => .str s
  | some v => .str (pyStr v)

/-- Coercion applied by the normalizer to each of the three list fields
(src/app.py lines 38-56, repeated verbatim for gaps and recommendations):
absent defaults to the empty list, a list passes through unchanged, a
string is split by splitByPriority, anything else becomes [str(value)]. -/
def listCoerce : Option JValue → JValue
  | none => .arr []
  | some (.arr l) => .arr l
  | some (.str s) => .arr ((splitByPriority s).map JValue.str)
  | some v => .arr [.str (pyStr v)]

/-- normalize_analysis_response (src/app.py lines 20-96): build the dict of
defaults and overwrite each of the four fields from the input when present,
coercing as the source does. The three list-field blocks of the source are
identical up to the field name, so they share listCoerce here. -/
def normalize_analysis_response (analysis : PyDict) : PyDict :=
  [("match_explanation", meCoerce (lookupKey analysis "match_explanation")),
   ("strengths", listCoerce (lookupKey analysis "strengths")),
   ("gaps", listCoerce (lookupKey analysis "gaps")),
   ("recommendations", listCoerce (lookupKey analysis "recommendations"))]

/-- Python type name of a JSON-decoded value, as it appears in error
messages. -/
def typeName : JValue → String
  | .null => "NoneType"
  | .bool _ => "bool"
  | .num _ => "int"
  | .str _ => "str"
  | .arr _ => "list"
  | .obj _ => "dict"

/-- Message of the AttributeError raised when .get is called on a value
that is not a dict. -/
def noGetMsg (v : JValue) : String :=
  apos ++ typeName v ++ apos ++ " object has no attribute " ++ apos ++ "get" ++ apos

/-- Python value.get(key, default): dict lookup with a default, raising
AttributeError (as an error result) on anything that is not a dict. -/
def pyGet (v : JValue) (k : String) (dflt : JValue) : Except String JValue :=
  match v with
  | .obj entries => .ok (lookupKeyD entries k dflt)
  | v => .error (noGetMsg v)

/-- Python substring containment on character lists. -/
def substrInAux (n : List Char) : List Char → Bool
  | [] => n.isEmpty
  | c :: t => if n.isPrefixOf (c :: t) then true else substrInAux n t

/-- Python substring containment: needle in hay. -/
def substrIn (needle hay : String) : Bool := substrInAux needle.toList hay.toList

/-- Python "k" in xs for a list xs: some element equals the string k
(only string elements can compare equal to a string). -/
def memStrPy (xs : List JValue) (k : String) : Bool :=
  xs.any (fun x => match x with | .str t => t == k | _ => false)

/-- Python truthiness of a JSON-decoded value. -/
def pyTruthy : JValue → Bool
  | .null => false
  | .bool b => b
  | .num n => n != 0
  | .str s => !s.isEmpty
  | .arr l => !l.isEmpty
  | .obj l => !l.isEmpty

/-- Python key in value at the top level of the handler: key membership for
dicts, substring test for strings, element membership for lists, TypeError
otherwise. -/
def pyContains (v : JValue) (k : String) : Except String Bool :=
  match v with
  | .obj entries => .ok (entries.any (fun p => p.1 == k))
  | .str s => .ok (substrIn k s)
  | .arr xs => .ok (memStrPy xs k)
  | v => .error ("argument of type " ++ apos ++ typeName v ++ apos ++ " is not iterable")

/-- Interpolation of one profile or job field into the prompt f-string:
d.get(key, "N/A") rendered by str() — the "N/A" placeholder when the key is
absent (src/app.py lines 115-140). -/
def fieldText (d : PyDict) (k : String) : String :=
  pyStr (lookupKeyD d k (JValue.str "N/A"))

/-- The weighted matching-algorithm components enumerated in the prompt
(src/app.py lines 146-153): component name, weight percentage, description. -/
def componentWeights : List (String × Nat × String) :=
  [("Required Skills", 30, "Job" ++ apos ++ "s Required Skills matched against your Technical Skills and Soft Skills (Character, Collaboration, Communication, Creativity, Critical Thinking, Fortitude, Growth Mindset, Leadership, Mindfulness) and Other Skills"),
   ("Preferred Skills", 15, "Job" ++ apos ++ "s Preferred Skills matched against your Technical Skills and Other Skills"),
   ("Other Skills", 10, "Job" ++ apos ++ "s Required & Preferred Skills matched against your Technical Skills and Other Skills"),
   ("Qualifications", 15, "Job" ++ apos ++ "s Qualifications matched against your Education and Experience"),
   ("Responsibilities", 15, "Job" ++ apos ++ "s Key Responsibilities matched against your Experience"),
   ("Industry", 5, "Job" ++ apos ++ "s Industry matched against your Industry experience"),
   ("Role", 5, "Job" ++ apos ++ "s Role matched against your Job Titles"),
   ("Location", 5, "Job" ++ apos ++ "s Location matched against your City")]

/-- One numbered line of the matching-algorithm enumeration. -/
def componentLine (n : Nat) (c : String × Nat × String) : String :=
  natRepr n ++ ". " ++ c.1 ++ " (" ++ natRepr c.2.1 ++ "%): " ++ c.2.2 ++ "\n"

/-- The MATCHING ALGORITHM COMPONENTS block of the prompt, generated from
componentWeights (src/app.py lines 145-153). -/
def algoChunk : String :=
  "MATCHING ALGORITHM COMPONENTS:\n" ++
    String.join (componentWeights.enum.map (fun p => componentLine (p.1 + 1) p.2))

/-- The closing block of the prompt that fixes the response format: the four
output keys, with the three list fields required to be arrays of strings
(src/app.py lines 161-167). -/
def formatChunk : String :=
  "Format your response as a JSON with these keys:\n- match_explanation: (string) detailed explanation text\n- strengths: (array of strings) list of matching strengths\n- gaps: (array of strings) list of skill/qualification gaps\n- recommendations: (array of strings) list of actionable recommendations\n\nIMPORTANT: strengths, gaps, and recommendations MUST be arrays of strings, not single strings or other formats.\n"

/-- The prompt f-string of analyze_job_match (src/app.py lines 111-168) as
the list of its pieces, literal text alternating with interpolated field
values; the full prompt is String.join of this list. -/
def promptChunks (member jobpost : PyDict) (mp : JValue) : List String :=
  ["\nYou are an AI career advisor analyzing a job match. Here" ++ apos ++ "s the data:\n\nJOB POSTING:\n- Title: ",
   fieldText jobpost "JobTitle",
   "\n- Required Skills: ", fieldText jobpost "Required_Skills",
   "\n- Preferred Skills: ", fieldText jobpost "PreferredSkills",
   "\n- Qualifications: ", fieldText jobpost "Qualifications",
   "\n- Responsibilities: ", fieldText jobpost "Key_Responsibilities",
   "\n- Industry: ", fieldText jobpost "Industry",
   "\n- Role: ", fieldText jobpost "Role",
   "\n- Location: ", fieldText jobpost "JobLocation",
   "\n\nYOUR PROFILE:\n- Headline: ", fieldText member "Headline",
   "\n- Technical Skills: ", fieldText member "TechnicalSkillNames",
   "\n- Other Skills: ", fieldText member "OtherSkills",
   "\n- Experience: ", fieldText member "Experience",
   "\n- Job Titles: ", fieldText member "JobTitles",
   "\n- Education: ", fieldText member "Education",
   "\n- Communication Skills: ", fieldText member "CommunicationNames",
   "\n- Leadership Skills: ", fieldText member "LeadershipNames",
   "\n- Critical Thinking: ", fieldText member "CriticalThinkingNames",
   "\n- Collaboration: ", fieldText member "CollaborationNames",
   "\n- Character: ", fieldText member "CharacterNames",
   "\n- Creativity: ", fieldText member "CreativityNames",
   "\n- Growth Mindset: ", fieldText member "GrowthMindsetNames",
   "\n- Mindfulness: ", fieldText member "MindfulnessNames",
   "\n- Fortitude: ", fieldText member "FortitudeNames",
   "\n- City: ", fieldText member "CityName",
   "\n\nMATCH RESULT:\n- Match Percentage: ", pyStr mp,
   "%\n\n",
   algoChunk,
   "\nBased on the above information and matching algorithm, provide a detailed explanation of:\n1. Why your profile received a ",
   pyStr mp,
   "% match score for this job\n2. Identify the strongest matching areas between your profile and the job\n3. Identify skills or qualifications gaps you should work on to improve your match percentage\n4. Provide 3-5 specific, actionable recommendations for how you can improve your match score\n\n",
   formatChunk]

/-- Evaluation of the prompt f-string on the extracted member and jobpost
values. The interpolations run in textual order and job fields come first,
so a jobpost that is not a dict raises AttributeError before a member that
is not a dict; with both dicts every .get has the "N/A" default and the
f-string cannot fail. -/
def buildPromptE (member jobpost mp : JValue) : Except String String :=
  match jobpost, member with
  | .obj j, .obj m => .ok (String.join (promptChunks m j mp))
  | .obj _, v => .error (noGetMsg v)
  | v, _ => .error (noGetMsg v)

/-- The configuration-error message returned when no API key is set
(src/app.py line 103). -/
def cfgErrorMsg : String :=
  "OpenAI API key not configured. Please set the OPENAI_API_KEY environment variable."

/-- Python truthiness test of the module-level openai_api_key: os.getenv
yields None when unset, and an empty string is also falsy. -/
def apiKeyMissing : Option String → Bool
  | none => true
  | some s => s.isEmpty

/-- The wrapper put around any exception escaping the completion call or the
response handling (src/app.py line 197). -/
def jobMatchErrMsg (e : String) : String := "Error analyzing job match: " ++ e

/-- The four keys probed by normalize_analysis_response, in source order. -/
def analysisKeys : List String := ["match_explanation", "strengths", "gaps", "recommendations"]

/-- normalize_analysis_response applied to an arbitrary decoded JSON value,
as Python would run it: a dict normalizes; a string or list raises TypeError
as soon as a probed key tests as present (substring or element membership),
otherwise every probe misses and the defaults are returned; any other value
raises TypeError at the first in test. -/
def normalizePy : JValue → Except String PyDict
  | .obj entries => .ok (normalize_analysis_response entries)
  | .str s =>
      if analysisKeys.any (fun k => substrIn k s) then
        .error "string indices must be integers"
      else .ok (normalize_analysis_response [])
  | .arr xs =>
      if analysisKeys.any (fun k => memStrPy xs k) then
        .error "list indices must be integers or slices, not str"
      else .ok (normalize_analysis_response [])
  | v => .error ("argument of type " ++ apos ++ typeName v ++ apos ++ " is not iterable")

/-- analyze_job_match (src/app.py lines 98-197). The OpenAI chat-completion
call is the oracle complete (errors model exceptions from the client, with
their message); json.loads on the returned content is the oracle parseJson
(none models JSONDecodeError). The missing-key check precedes everything
else; the field extraction and prompt construction sit outside the
try-block, so their AttributeErrors propagate to the caller; everything from
the completion call onward is caught and wrapped as an error dict. -/
def analyze_job_match (apiKey : Option String)
    (complete : String → Except String String)
    (parseJson : String → Option JValue) (data : JValue) :
    Except String PyDict :=
  if apiKeyMissing apiKey then
    .ok [("error", JValue.str cfgErrorMsg)]
  else do
    let d1 ← pyGet data "data" (JValue.obj [])
    let member ← pyGet d1 "member" (JValue.obj [])
    let d2 ← pyGet data "data" (JValue.obj [])
    let jobpost ← pyGet d2 "jobpost" (JValue.obj [])
    let d3 ← pyGet data "data" (JValue.obj [])
    let mp ← pyGet d3 "Matching_Percentage" (JValue.num 0)
    let prompt ← buildPromptE member jobpost mp
    match complete prompt with
    | .error e => .ok [("error", JValue.str (jobMatchErrMsg e))]
    | .ok content =>
      match parseJson content with
      | some a =>
        match normalizePy a with
        | .ok dct => .ok dct
        | .error e => .ok [("error", JValue.str (jobMatchErrMsg e))]
      | none =>
        .ok (normalize_analysis_response
          [("match_explanation", JValue.str content),
           ("strengths", JValue.arr []),
           ("gaps", JValue.arr []),
           ("recommendations", JValue.arr [])])

/-- The exact 400 validation message of the handler (src/app.py line 210). -/
def validationErrMsg : String :=
  "Invalid data format. Missing " ++ apos ++ "data" ++ apos ++ " field."

/-- The 400 response body. -/
def validationErrBody : JValue := JValue.obj [("error", JValue.str validationErrMsg)]

/-- The try-block of the analyze_match handler (src/app.py lines 204-224):
request.json is the body (none when Flask yields None), the data check
short-circuits to the 400 response, and the success envelope echoes
Matching_Percentage with default 0. An error result models an exception
reaching the handler's except-clause. -/
def handlerCore (apiKey : Option String)
    (complete : String → Except String String)
    (parseJson : String → Option JValue) (body : Option JValue) :
    Except String (Nat × JValue) :=
  match body with
  | none => .ok (400, validationErrBody)
  | some data =>
    if !pyTruthy data then .ok (400, validationErrBody)
    else do
      let hasData ← pyContains data "data"
      if !hasData then .ok (400, validationErrBody)
      else do
        let analysis ← analyze_job_match apiKey complete parseJson data
        let inner ← pyGet data "data" (JValue.obj [])
        let mp ← pyGet inner "Matching_Percentage" (JValue.num 0)
        .ok (200, JValue.obj
          [("status", JValue.str "success"),
           ("data", JValue.obj
             [("Matching_Percentage", mp),
              ("analysis", JValue.obj analysis)])])

/-- The analyze_match handler (src/app.py lines 199-227): the try-block
result, with any uncaught exception turned into a 500 response carrying the
exception message. The result is the HTTP status code and the JSON body. -/
def analyze_match (apiKey : Option String)
    (complete : String → Except String String)
    (parseJson : String → Option JValue) (body : Option JValue) :
    Nat × JValue :=
  match handlerCore apiKey complete parseJson body with
  | .ok r => r
  | .error e => (500, JValue.obj [("error", JValue.str e)])

/-- Shape of one normalized list field: the output holds an array — never a
bare string, never null — and, whenever the input value of the field was not
already an array, every element of the output is a non-empty string. -/
def listFieldProp (d : PyDict) (f : String) : Prop :=
  ∃ xs, lookupKey (normalize_analysis_response d) f = some (JValue.arr xs) ∧
    ((∀ l, lookupKey d f ≠ some (JValue.arr l)) →
      ∀ x ∈ xs, ∃ t, x = JValue.str t ∧ t ≠ "")

/-- Delimiter handling of one normalized list field whose input value is the
non-blank string s: split on newline when a newline occurs (regardless of
other delimiters), else on semicolon when one occurs, else on comma when one
occurs, and otherwise keep the whole string as a singleton. -/
def splitsAsClaimed (d : PyDict) (f s : String) : Prop :=
  lookupKey d f = some (JValue.str s) → pyStrip s ≠ "" →
    (charIn '\n' s = true →
      lookupKey (normalize_analysis_response d) f =
        some (JValue.arr ((splitAndTrim s '\n').map JValue.str)))
    ∧ (charIn '\n' s = false → charIn ';' s = true →
      lookupKey (normalize_analysis_response d) f =
        some (JValue.arr ((splitAndTrim s ';').map JValue.str)))
    ∧ (charIn '\n' s = false → charIn ';' s = false → charIn ',' s = true →
      lookupKey (normalize_analysis_response d) f =
        some (JValue.arr ((splitAndTrim s ',').map JValue.str)))
    ∧ (charIn '\n' s = false → charIn ';' s = false → charIn ',' s = false →
      lookupKey (normalize_analysis_response d) f =
        some (JValue.arr [JValue.str s]))

/-- The fallback dict built when the completion text is not valid JSON
(src/app.py lines 189-194): the raw text as match_explanation, empty lists
elsewhere. -/
def fallbackDict (txt : String) : PyDict :=
  [("match_explanation", JValue.str txt),
   ("strengths", JValue.arr []),
   ("gaps", JValue.arr []),
   ("recommendations", JValue.arr [])]

/-- Whether a decoded JSON value is a dict. -/
def isObjB : JValue → Bool
  | .obj _ => true
  | _ => false

/-- Lookup of match_explanation in the normalizer output reduces to the
coercion of the input field. -/
theorem lk_norm_me (d : PyDict) :
    lookupKey (normalize_analysis_response d) "match_explanation" =
      some (meCoerce (lookupKey d "match_explanation")) := rfl

/-- Lookup of strengths in the normalizer output. -/
theorem lk_norm_strengths (d : PyDict) :
    lookupKey (normalize_analysis_response d) "strengths" =
      some (listCoerce (lookupKey d "strengths")) := rfl

/-- Lookup of gaps in the normalizer output. -/
theorem lk_norm_gaps (d : PyDict) :
    lookupKey (normalize_analysis_response d) "gaps" =
      some (listCoerce (lookupKey d "gaps")) := rfl

/-- Lookup of recommendations in the normalizer output. -/
theorem lk_norm_recs (d : PyDict) :
    lookupKey (normalize_analysis_response d) "recommendations" =
      some (listCoerce (lookupKey d "recommendations")) := rfl

/-- The explanation coercion always yields a string value. -/
theorem meCoerce_shape (o : Option JValue) : ∃ s, meCoerce o = JValue.str s := by
  match o with
  | none => exact ⟨"", rfl⟩
  | some (.str s) => exact ⟨s, rfl⟩
  | some .null => exact ⟨_, rfl⟩
  | some (.bool b) => exact ⟨_, rfl⟩
  | some (.num n) => exact ⟨_, rfl⟩
  | some (.arr l) => exact ⟨_, rfl⟩
  | some (.obj l) => exact ⟨_, rfl⟩

/-- The list-field coercion always yields an array value. -/
theorem listCoerce_shape (o : Option JValue) : ∃ l, listCoerce o = JValue.arr l := by
  match o with
  | none => exact ⟨[], rfl⟩
  | some (.str s) => exact ⟨_, rfl⟩
  | some (.arr l) => exact ⟨l, rfl⟩
  | some .null => exact ⟨_, rfl⟩
  | some (.bool b) => exact ⟨_, rfl⟩
  | some (.num n) => exact ⟨_, rfl⟩
  | some (.obj l) => exact ⟨_, rfl⟩

/-- Re-coercing an already-coerced explanation changes nothing. -/
theorem meCoerce_fix (o : Option JValue) : meCoerce (some (meCoerce o)) = meCoerce o := by
  obtain ⟨s, h⟩ := meCoerce_shape o
  rw [h]
  rfl

/-- Re-coercing an already-coerced list field changes nothing. -/
theorem listCoerce_fix (o : Option JValue) : listCoerce (some (listCoerce o)) = listCoerce o := by
  obtain ⟨l, h⟩ := listCoerce_shape o
  rw [h]
  rfl

/-- A string built from a non-empty character list is non-empty. -/
theorem asString_ne_empty (l : List Char) (h : l ≠ []) : l.asString ≠ "" := by
  intro he
  have := congrArg String.toList he
  rw [List.toList_asString, String.toList_empty] at this
  exact h this

/-- Appending to a non-empty string stays non-empty. -/
theorem append_ne_empty_left (s t : String) (h : s ≠ "") : s ++ t ≠ "" := by
  intro he
  have hd := congrArg String.toList he
  simp only [String.toList, String.data_append, String.toList_empty] at hd
  rcases List.append_eq_nil.mp hd with ⟨h1, _⟩
  exact h (by rwa [← String.toList_inj, String.toList_empty])

/-- The digit expansion of a natural number is never empty. -/
theorem natDigits_ne_nil (n : Nat) : natDigits n ≠ [] := by
  rw [natDigits]
  split
  · simp
  · simp

/-- Decimal representations of naturals are non-empty. -/
theorem natRepr_ne_empty (n : Nat) : natRepr n ≠ "" :=
  asString_ne_empty _ (natDigits_ne_nil n)

/-- Decimal representations of integers are non-empty. -/
theorem intRepr_ne_empty (i : Int) : intRepr i ≠ "" := by
  unfold intRepr
  split
  · exact append_ne_empty_left _ _ (by decide)
  · exact natRepr_ne_empty _

/-- Stripping the empty string gives the empty string, so a string whose
strip is non-empty is itself non-empty. -/
theorem ne_empty_of_strip (s : String) (h : pyStrip s ≠ "") : s ≠ "" := by
  intro he
  subst he
  exact h rfl

/-- The Python repr of any decoded JSON value is non-empty. -/
theorem pyRepr_ne_empty (v : JValue) : pyRepr v ≠ "" := by
  match v with
  | .null => decide
  | .bool b => cases b <;> decide
  | .num n => exact intRepr_ne_empty n
  | .str s =>
    exact append_ne_empty_left (apos ++ s) apos (append_ne_empty_left apos s (by decide))
  | .arr l =>
    exact append_ne_empty_left ("[" ++ pyReprItems l) "]"
      (append_ne_empty_left "[" (pyReprItems l) (by decide))
  | .obj l =>
    exact append_ne_empty_left ("\x7b" ++ pyReprEntries l) "\x7d"
      (append_ne_empty_left "\x7b" (pyReprEntries l) (by decide))

/-- The Python str() of a non-string decoded JSON value is non-empty. -/
theorem pyStr_ne_empty_of_not_str (v : JValue) (h : ∀ s, v ≠ JValue.str s) :
    pyStr v ≠ "" := by
  match v with
  | .str s => exact absurd rfl (h s)
  | .null => exact pyRepr_ne_empty .null
  | .bool b => exact pyRepr_ne_empty (.bool b)
  | .num n => exact pyRepr_ne_empty (.num n)
  | .arr l => exact pyRepr_ne_empty (.arr l)
  | .obj l => exact pyRepr_ne_empty (.obj l)

/-- Every piece kept by splitAndTrim is the non-empty strip of one of the
raw split pieces. -/
theorem splitAndTrim_mem (s : String) (c : Char) (t : String)
    (h : t ∈ splitAndTrim s c) : t ≠ "" ∧ ∃ u, u ∈ pySplit s c ∧ t = pyStrip u := by
  unfold splitAndTrim at h
  rw [List.mem_filter] at h
  obtain ⟨hm, hne⟩ := h
  rw [List.mem_map] at hm
  obtain ⟨u, hu, he⟩ := hm
  subst he
  refine ⟨fun hcon => ?_, u, hu, rfl⟩
  rw [hcon] at hne
  simp only [Bool.not_eq_true'] at hne
  exact absurd hne (by decide)

/-- Every element of a priority split is non-empty. -/
theorem splitByPriority_mem (s t : String) (h : t ∈ splitByPriority s) : t ≠ "" := by
  unfold splitByPriority at h
  split_ifs at h with h1 h2 h3 h4
  · simp at h
  · exact (splitAndTrim_mem s '\n' t h).1
  · exact (splitAndTrim_mem s ';' t h).1
  · exact (splitAndTrim_mem s ',' t h).1
  · rw [List.mem_singleton] at h
    subst h
    exact ne_empty_of_strip t h1

/-- A key absent from an association list makes the any-test false. -/
theorem lookupKey_none_any (kvs : PyDict) (k : String)
    (h : lookupKey kvs k = none) : kvs.any (fun p => p.1 == k) = false := by
  induction kvs with
  | nil => rfl
  | cons a t ih =>
    rw [lookupKey] at h
    split at h
    · exact absurd h (by simp)
    · rename_i hne
      simp only [List.any_cons, ih h, Bool.or_false]
      simpa using hne

/-- The list-field shape property holds at any field whose normalized value
is the coercion of the input field. -/
theorem listFieldProp_holds (d : PyDict) (f : String)
    (hf : lookupKey (normalize_analysis_response d) f =
      some (listCoerce (lookupKey d f))) : listFieldProp d f := by
  obtain ⟨xs, hx⟩ := listCoerce_shape (lookupKey d f)
  refine ⟨xs, by rw [hf, hx], fun hno x hxin => ?_⟩
  cases hcase : lookupKey d f with
  | none =>
    rw [hcase] at hx
    injection hx with hx
    cases hx.symm ▸ hxin
  | some v =>
    cases v with
    | arr l => exact absurd hcase (hno l)
    | str s =>
      rw [hcase] at hx
      injection hx with hx
      rw [← hx] at hxin
      rw [List.mem_map] at hxin
      obtain ⟨t, ht, he⟩ := hxin
      exact ⟨t, he.symm, splitByPriority_mem s t ht⟩
    | null =>
      rw [hcase] at hx
      injection hx with hx
      rw [← hx] at hxin
      rw [List.mem_singleton] at hxin
      exact ⟨pyStr .null, hxin, pyStr_ne_empty_of_not_str .null (fun s h => JValue.noConfusion h)⟩
    | bool b =>
      rw [hcase] at hx
      injection hx with hx
      rw [← hx] at hxin
      rw [List.mem_singleton] at hxin
      exact ⟨pyStr (.bool b), hxin, pyStr_ne_empty_of_not_str _ (fun s h => JValue.noConfusion h)⟩
    | num n =>
      rw [hcase] at hx
      injection hx with hx
      rw [← hx] at hxin
      rw [List.mem_singleton] at hxin
      exact ⟨pyStr (.num n), hxin, pyStr_ne_empty_of_not_str _ (fun s h => JValue.noConfusion h)⟩
    | obj l =>
      rw [hcase] at hx
      injection hx with hx
      rw [← hx] at hxin
      rw [List.mem_singleton] at hxin
      exact ⟨pyStr (.obj l), hxin, pyStr_ne_empty_of_not_str _ (fun s h => JValue.noConfusion h)⟩

/-- The delimiter-priority property holds at any field whose normalized
value is the coercion of the input field. -/
theorem splitsAsClaimed_holds (d : PyDict) (f s : String)
    (hf : lookupKey (normalize_analysis_response d) f =
      some (listCoerce (lookupKey d f))) : splitsAsClaimed d f s := by
  intro h hs
  rw [hf, h]
  refine ⟨fun h1 => ?_, fun h1 h2 => ?_, fun h1 h2 h3 => ?_, fun h1 h2 h3 => ?_⟩
  all_goals simp [listCoerce, splitByPriority, hs, *]

/-- C1 (counterexample): it is not the case that every element of a
normalized list field is a non-empty string — on the input mapping
\x7b"strengths": [""]\x7d the input list passes through unchanged and the
output strengths contains the empty string. -/
theorem normalize_empty_element_survives :
    ¬ ∀ (d : PyDict) (xs : List JValue),
        lookupKey (normalize_analysis_response d) "strengths" = some (JValue.arr xs) →
        ∀ x ∈ xs, ∃ t, x = JValue.str t ∧ t ≠ "" := by
  intro h
  obtain ⟨t, ht, hne⟩ :=
    h [("strengths", JValue.arr [JValue.str ""])] [JValue.str ""] rfl
      (JValue.str "") (by simp)
  injection ht with ht
  exact hne ht.symm

/-- C1 (amended): for every input mapping, each of the three output fields
strengths, gaps, recommendations is always an array — never a bare string,
never null — and, whenever the input value of the field was not already an
array, every element of the output is a non-empty string; an input array is
passed through unchanged, so its elements are whatever the input held. -/
theorem normalize_list_fields_invariant (d : PyDict) :
    listFieldProp d "strengths" ∧ listFieldProp d "gaps" ∧
      listFieldProp d "recommendations" :=
  ⟨listFieldProp_holds d "strengths" (lk_norm_strengths d),
   listFieldProp_holds d "gaps" (lk_norm_gaps d),
   listFieldProp_holds d "recommendations" (lk_norm_recs d)⟩

/-- Witness for C1 at a concrete malformed input. -/
theorem normalize_list_fields_invariant_witness :
    listFieldProp [("strengths", JValue.str "a,b"), ("gaps", JValue.num 3)] "strengths" ∧
    listFieldProp [("strengths", JValue.str "a,b"), ("gaps", JValue.num 3)] "gaps" ∧
    listFieldProp [("strengths", JValue.str "a,b"), ("gaps", JValue.num 3)] "recommendations" :=
  normalize_list_fields_invariant [("strengths", JValue.str "a,b"), ("gaps", JValue.num 3)]

/-- C2: for every non-blank string value of a list field, the normalizer
splits on the first matching delimiter in the priority order newline, then
semicolon, then comma — a newline in the string forces a newline split even
when semicolons or commas are present — every kept piece is the non-empty
strip of a raw split piece, and with none of the three delimiters present
the whole string becomes a singleton. -/
theorem normalize_delimiter_priority (d : PyDict) (s : String) :
    splitsAsClaimed d "strengths" s ∧ splitsAsClaimed d "gaps" s ∧
      splitsAsClaimed d "recommendations" s ∧
      ∀ (c : Char) (t : String), t ∈ splitAndTrim s c →
        t ≠ "" ∧ ∃ u, u ∈ pySplit s c ∧ t = pyStrip u :=
  ⟨splitsAsClaimed_holds d "strengths" s (lk_norm_strengths d),
   splitsAsClaimed_holds d "gaps" s (lk_norm_gaps d),
   splitsAsClaimed_holds d "recommendations" s (lk_norm_recs d),
   fun c t h => splitAndTrim_mem s c t h⟩

/-- Witness for C2: a string holding a newline together with a semicolon and
a comma splits on the newline only. -/
theorem normalize_delimiter_priority_witness :
    lookupKey [("strengths", JValue.str "a; b\nc,d")] "strengths" =
        some (JValue.str "a; b\nc,d") ∧
      pyStrip "a; b\nc,d" ≠ "" ∧ charIn '\n' "a; b\nc,d" = true ∧
      lookupKey (normalize_analysis_response [("strengths", JValue.str "a; b\nc,d")])
          "strengths" =
        some (JValue.arr ((splitAndTrim "a; b\nc,d" '\n').map JValue.str)) :=
  ⟨rfl, by decide, by decide,
    ((normalize_delimiter_priority [("strengths", JValue.str "a; b\nc,d")]
      "a; b\nc,d").1 rfl (by decide)).1 (by decide)⟩

/-- C3: a blank string value of a list field normalizes to the empty array
(not to a singleton holding an empty string), and absent fields get their
zero-value defaults: empty string for match_explanation, empty array for
each of the three list fields. -/
theorem normalize_blank_and_missing_defaults (d : PyDict) (s : String) :
    (lookupKey d "strengths" = some (JValue.str s) → pyStrip s = "" →
      lookupKey (normalize_analysis_response d) "strengths" = some (JValue.arr []))
    ∧ (lookupKey d "gaps" = some (JValue.str s) → pyStrip s = "" →
      lookupKey (normalize_analysis_response d) "gaps" = some (JValue.arr []))
    ∧ (lookupKey d "recommendations" = some (JValue.str s) → pyStrip s = "" →
      lookupKey (normalize_analysis_response d) "recommendations" = some (JValue.arr []))
    ∧ (lookupKey d "match_explanation" = none →
      lookupKey (normalize_analysis_response d) "match_explanation" =
        some (JValue.str ""))
    ∧ (lookupKey d "strengths" = none →
      lookupKey (normalize_analysis_response d) "strengths" = some (JValue.arr []))
    ∧ (lookupKey d "gaps" = none →
      lookupKey (normalize_analysis_response d) "gaps" = some (JValue.arr []))
    ∧ (lookupKey d "recommendations" = none →
      lookupKey (normalize_analysis_response d) "recommendations" =
        some (JValue.arr [])) := by
  refine ⟨fun h hb => ?_, fun h hb => ?_, fun h hb => ?_,
    fun h => ?_, fun h => ?_, fun h => ?_, fun h => ?_⟩
  · rw [lk_norm_strengths, h]
    simp [listCoerce, splitByPriority, hb]
  · rw [lk_norm_gaps, h]
    simp [listCoerce, splitByPriority, hb]
  · rw [lk_norm_recs, h]
    simp [listCoerce, splitByPriority, hb]
  · rw [lk_norm_me, h]
    rfl
  · rw [lk_norm_strengths, h]
    rfl
  · rw [lk_norm_gaps, h]
    rfl
  · rw [lk_norm_recs, h]
    rfl

/-- Witness for C3 at a whitespace-only strengths value with every other
field absent. -/
theorem normalize_blank_and_missing_defaults_witness :
    lookupKey [("strengths", JValue.str " \t ")] "strengths" =
        some (JValue.str " \t ") ∧ pyStrip " \t " = "" ∧
      lookupKey (normalize_analysis_response [("strengths", JValue.str " \t ")])
          "strengths" = some (JValue.arr []) ∧
      lookupKey ([("strengths", JValue.str " \t ")] : PyDict) "gaps" = none ∧
      lookupKey (normalize_analysis_response [("strengths", JValue.str " \t ")])
          "gaps" = some (JValue.arr []) ∧
      lookupKey (normalize_analysis_response [("strengths", JValue.str " \t ")])
          "match_explanation" = some (JValue.str "") :=
  ⟨rfl, by decide,
    (normalize_blank_and_missing_defaults [("strengths", JValue.str " \t ")] " \t ").1
      rfl (by decide),
    rfl,
    (normalize_blank_and_missing_defaults [("strengths", JValue.str " \t ")]
      " \t ").2.2.2.2.2.1 rfl,
    (normalize_blank_and_missing_defaults [("strengths", JValue.str " \t ")]
      " \t ").2.2.2.1 rfl⟩

/-- C4: the normalizer is idempotent — normalizing its own output changes
nothing, for every input mapping. -/
theorem normalize_idempotent (d : PyDict) :
    normalize_analysis_response (normalize_analysis_response d) =
      normalize_analysis_response d := by
  show [("match_explanation",
          meCoerce (some (meCoerce (lookupKey d "match_explanation")))),
        ("strengths", listCoerce (some (listCoerce (lookupKey d "strengths")))),
        ("gaps", listCoerce (some (listCoerce (lookupKey d "gaps")))),
        ("recommendations",
          listCoerce (some (listCoerce (lookupKey d "recommendations"))))] =
       normalize_analysis_response d
  rw [meCoerce_fix, listCoerce_fix, listCoerce_fix, listCoerce_fix]
  rfl

/-- C9: the normalizer output has exactly the four keys match_explanation,
strengths, gaps, recommendations, in that order; any other input key is
discarded. -/
theorem normalize_output_keys (d : PyDict) :
    (normalize_analysis_response d).map Prod.fst = analysisKeys := rfl

/-- C5: with no API key configured, analyze_job_match returns the
configuration-error dict for every input and every completion oracle — the
result does not depend on the oracle, so no network call is attempted — and
the endpoint still answers 200 with status success, the request's
Matching_Percentage echoed (default 0 when absent), and the error inside the
analysis field. -/
theorem missing_api_key_config_error (key : Option String)
    (complete : String → Except String String) (parseJson : String → Option JValue)
    (inner : PyDict) (hk : apiKeyMissing key = true) :
    (∀ data : JValue, analyze_job_match key complete parseJson data =
        .ok [("error", JValue.str cfgErrorMsg)])
    ∧ analyze_match key complete parseJson
        (some (JValue.obj [("data", JValue.obj inner)])) =
      (200, JValue.obj
        [("status", JValue.str "success"),
         ("data", JValue.obj
           [("Matching_Percentage", lookupKeyD inner "Matching_Percentage" (JValue.num 0)),
            ("analysis", JValue.obj [("error", JValue.str cfgErrorMsg)])])]) := by
  have h1 : ∀ data : JValue, analyze_job_match key complete parseJson data =
      .ok [("error", JValue.str cfgErrorMsg)] := by
    intro data
    simp [analyze_job_match, hk]
  refine ⟨h1, ?_⟩
  simp [analyze_match, handlerCore, h1, pyContains, pyTruthy, pyGet, lookupKeyD,
    lookupKey, Bind.bind, Except.bind]

/-- Witness for C5 at a concrete request carrying a match percentage. -/
theorem missing_api_key_config_error_witness :
    apiKeyMissing none = true ∧
    analyze_match none (fun _ => .error "net") (fun _ => none)
        (some (JValue.obj [("data", JValue.obj [("Matching_Percentage", JValue.num 72)])])) =
      (200, JValue.obj
        [("status", JValue.str "success"),
         ("data", JValue.obj
           [("Matching_Percentage",
             lookupKeyD [("Matching_Percentage", JValue.num 72)] "Matching_Percentage"
               (JValue.num 0)),
            ("analysis", JValue.obj [("error", JValue.str cfgErrorMsg)])])]) :=
  ⟨rfl, (missing_api_key_config_error none (fun _ => .error "net") (fun _ => none)
    [("Matching_Percentage", JValue.num 72)] rfl).2⟩

/-- C6: a missing JSON body, or a body object without a data key, yields the
400 response with the exact validation error body, for every configuration
and every completion oracle — so no analysis is attempted. -/
theorem missing_data_field_400 (key : Option String)
    (complete : String → Except String String) (parseJson : String → Option JValue) :
    analyze_match key complete parseJson none = (400, validationErrBody)
    ∧ ∀ kvs : PyDict, lookupKey kvs "data" = none →
        analyze_match key complete parseJson (some (JValue.obj kvs)) =
          (400, validationErrBody) := by
  refine ⟨rfl, fun kvs h => ?_⟩
  cases kvs with
  | nil => rfl
  | cons a t =>
    have hany := lookupKey_none_any _ _ h
    simp [analyze_match, handlerCore, pyTruthy, pyContains, hany, Bind.bind, Except.bind]

/-- Witness for C6 at a body whose object lacks the data key. -/
theorem missing_data_field_400_witness :
    lookupKey ([("other", JValue.num 1)] : PyDict) "data" = none ∧
    analyze_match (some "k") (fun _ => .error "net") (fun _ => none)
        (some (JValue.obj [("other", JValue.num 1)])) = (400, validationErrBody) :=
  ⟨rfl, (missing_data_field_400 (some "k") (fun _ => .error "net") (fun _ => none)).2
    [("other", JValue.num 1)] rfl⟩

/-- C7 (counterexample): the matching algorithm enumerated in the prompt has
eight weighted components, not seven — the enumeration block sits verbatim
in the prompt built from the concrete empty request. -/
theorem prompt_components_eight_not_seven :
    componentWeights.length ≠ 7 ∧ algoChunk ∈ promptChunks [] [] (JValue.num 0) :=
  ⟨by decide, by simp [promptChunks]⟩

/-- C7 (amended): the prompt builder is a total function of the member and
jobpost mappings and the match percentage — every field read defaults to
"N/A" when absent, so no access fails — and the prompt contains the fixed
eight-component weighted algorithm block (weights 30, 15, 10, 15, 15, 5, 5,
5 summing to 100) and the format block requiring exactly the four output
fields with strengths, gaps and recommendations as arrays of strings. -/
theorem prompt_builder_contract (m j : PyDict) (p : JValue) :
    buildPromptE (JValue.obj m) (JValue.obj j) p =
        .ok (String.join (promptChunks m j p))
    ∧ algoChunk ∈ promptChunks m j p
    ∧ formatChunk ∈ promptChunks m j p
    ∧ (componentWeights.map (fun c => c.2.1)).sum = 100
    ∧ componentWeights.length = 8
    ∧ ∀ (d : PyDict) (k : String), lookupKey d k = none → fieldText d k = "N/A" := by
  refine ⟨rfl, by simp [promptChunks], by simp [promptChunks], by decide, by decide,
    fun d k h => ?_⟩
  simp [fieldText, lookupKeyD, h, pyStr]

/-- Witness for C7 at the empty request. -/
theorem prompt_builder_contract_witness :
    lookupKey ([] : PyDict) "JobTitle" = none ∧
    fieldText [] "JobTitle" = "N/A" ∧
    buildPromptE (JValue.obj []) (JValue.obj []) (JValue.num 72) =
      .ok (String.join (promptChunks [] [] (JValue.num 72))) :=
  ⟨rfl,
    (prompt_builder_contract [] [] (JValue.num 72)).2.2.2.2.2 [] "JobTitle" rfl,
    (prompt_builder_contract [] [] (JValue.num 72)).1⟩

/-- C8: when the completion text is not valid JSON, analyze_job_match
recovers locally — the raw text becomes match_explanation with empty lists
for the other three fields, the result passes through the normalizer
unchanged, and the caller sees no error key. -/
theorem parse_failure_recovered (key : Option String)
    (complete : String → Except String String) (parseJson : String → Option JValue)
    (m j : PyDict) (mp : JValue) (txt : String)
    (hk : apiKeyMissing key = false)
    (hc : complete (String.join (promptChunks m j mp)) = .ok txt)
    (hp : parseJson txt = none) :
    analyze_job_match key complete parseJson
        (JValue.obj [("data", JValue.obj
          [("member", JValue.obj m), ("jobpost", JValue.obj j),
           ("Matching_Percentage", mp)])]) = .ok (fallbackDict txt)
    ∧ normalize_analysis_response (fallbackDict txt) = fallbackDict txt
    ∧ lookupKey (fallbackDict txt) "error" = none := by
  refine ⟨?_, rfl, rfl⟩
  simp [analyze_job_match, hk, pyGet, lookupKeyD, lookupKey, buildPromptE, hc, hp,
    fallbackDict, Bind.bind, Except.bind]
  rfl

/-- Witness for C8 with a completion oracle returning plain text. -/
theorem parse_failure_recovered_witness :
    apiKeyMissing (some "k") = false ∧
    (fun _ : String => (.ok "plain text" : Except String String))
        (String.join (promptChunks [] [] (JValue.num 0))) = .ok "plain text" ∧
    (fun _ : String => (none : Option JValue)) "plain text" = none ∧
    analyze_job_match (some "k") (fun _ => .ok "plain text") (fun _ => none)
        (JValue.obj [("data", JValue.obj
          [("member", JValue.obj []), ("jobpost", JValue.obj []),
           ("Matching_Percentage", JValue.num 0)])]) =
      .ok (fallbackDict "plain text") :=
  ⟨rfl, rfl, rfl,
    (parse_failure_recovered (some "k") (fun _ => .ok "plain text") (fun _ => none)
      [] [] (JValue.num 0) "plain text" rfl rfl rfl).1⟩

/-- C10: with a configured key and a data value that is not a mapping,
the handler returns neither 400 nor a success envelope: the .get call on
the non-mapping raises, and the boundary handler reports 500 with the
exception message. -/
theorem nonmapping_data_yields_500 (key : Option String)
    (complete : String → Except String String) (parseJson : String → Option JValue)
    (v : JValue) (hk : apiKeyMissing key = false) (hv : isObjB v = false) :
    analyze_match key complete parseJson (some (JValue.obj [("data", v)])) =
      (500, JValue.obj [("error", JValue.str (noGetMsg v))]) := by
  cases v <;>
    simp_all [analyze_match, handlerCore, analyze_job_match, pyGet, pyContains,
      pyTruthy, lookupKeyD, lookupKey, isObjB, memStrPy, substrIn, Bind.bind, Except.bind]

/-- Witness for C10 at a JSON-null data value. -/
theorem nonmapping_data_yields_500_witness :
    apiKeyMissing (some "k") = false ∧ isObjB JValue.null = false ∧
    analyze_match (some "k") (fun _ => .error "net") (fun _ => none)
        (some (JValue.obj [("data", JValue.null)])) =
      (500, JValue.obj [("error", JValue.str (noGetMsg JValue.null))]) :=
  ⟨rfl, rfl, nonmapping_data_yields_500 (some "k") (fun _ => .error "net")
    (fun _ => none) JValue.null rfl rfl⟩
